import Mathlib

/-!
Verification of the LoRA-for-RoBERTa adaptation code in
src/lora_implementation_scratch.py against its natural-language specification.

The development has two layers, both shallow embeddings of the Python source:

* a numeric layer (matrices over the rationals, standing in for floating-point
  tensors) embedding the arithmetic of LoraRobertaSelfAttention: the base
  linear projections, the low-rank update paths lora_query / lora_value, and
  the key/value/mask selection of the overridden forward;

* a structural layer (module trees with named parameters, tensors abstracted
  to single rational values since their contents are irrelevant here)
  embedding the LoraWrapperRobertaHelper logic: recursive module replacement
  with its state-dict integrity check, the parameter-freezing policy, and the
  construction pipeline.  The code stranded inside
  freeze_parameters_except_lora_and_bias (a load-state body whose def line is
  missing from the source) is embedded faithfully: its first executable
  statement reads the unbound name lora_parameters, so the method always ends
  in a NameError.

External collaborators (the transformers loading function, torch's non-strict
load_state_dict) are modelled from the contracts the specification states for
them; every doc comment says what the definition embeds.
-/

namespace LoraPeft

/-- Python str.startswith on character lists: listStartsWith s p is true when p
is an initial segment of s. -/
def listStartsWith : List Char → List Char → Bool
  | _, [] => true
  | [], _ :: _ => false
  | a :: as, b :: bs => a == b && listStartsWith as bs

/-- Python substring membership (the in operator) on character lists:
listContainsSub s p is true when p occurs contiguously inside s. -/
def listContainsSub : List Char → List Char → Bool
  | [], pat => listStartsWith [] pat
  | s@(_ :: rest), pat => listStartsWith s pat || listContainsSub rest pat

/-- Python str.startswith for strings. -/
def strStartsWith (s p : String) : Bool := listStartsWith s.toList p.toList

/-- Python substring membership for strings, as used in the freezing policy
conditions such as "bias" in name. -/
def strContainsSub (s p : String) : Bool := listContainsSub s.toList p.toList

/-! Numeric layer: matrices over the rationals.  A tensor of shape (n, m) is a
list of n rows of length m; floating-point arithmetic is idealised as exact
rational arithmetic. -/

/-- Dot product of two rows, truncating at the shorter one. -/
def dotProd (u v : List ℚ) : ℚ := (List.zipWith (fun a b => a * b) u v).sum

/-- Entrywise matrix addition (the + on tensors in lora_query and lora_value). -/
def matAdd (m1 m2 : List (List ℚ)) : List (List ℚ) :=
  List.zipWith (List.zipWith (fun a b => a + b)) m1 m2

/-- torch.matmul for two-dimensional tensors. -/
def matMulMat (m1 m2 : List (List ℚ)) : List (List ℚ) :=
  m1.map (fun row => m2.transpose.map (fun col => dotProd row col))

/-- F.linear with no bias: x mapped through a weight matrix W, computing
x times the transpose of W. -/
def fLinear (x w : List (List ℚ)) : List (List ℚ) :=
  x.map (fun row => w.map (fun wrow => dotProd row wrow))

/-- A torch nn.Linear forward with weight and bias: x times the transpose of
the weight, plus the bias broadcast over rows. -/
def linearForward (weight : List (List ℚ)) (bias : List ℚ) (x : List (List ℚ)) :
    List (List ℚ) :=
  x.map (fun row => List.zipWith (fun a b => a + b) (weight.map (fun wrow => dotProd row wrow)) bias)

/-- The all-zeros matrix of shape (n, m), embedding torch.zeros. -/
def zerosMat (n m : Nat) : List (List ℚ) := List.replicate n (List.replicate m 0)

/-- Numeric state of a LoraRobertaSelfAttention instance (src lines 13-53):
the base projection weights and biases inherited from RobertaSelfAttention,
the head geometry, and the four LoRA factor matrices added in the constructor
(src lines 34-37). -/
structure LoraRobertaSelfAttention where
  num_attention_heads : Nat
  attention_head_size : Nat
  query_weight : List (List ℚ)
  query_bias : List ℚ
  key_weight : List (List ℚ)
  key_bias : List ℚ
  value_weight : List (List ℚ)
  value_bias : List ℚ
  lora_query_matrix_B : List (List ℚ)
  lora_query_matrix_A : List (List ℚ)
  lora_value_matrix_B : List (List ℚ)
  lora_value_matrix_A : List (List ℚ)
deriving DecidableEq

/-- self.all_head_size of the base module. -/
def LoraRobertaSelfAttention.all_head_size (m : LoraRobertaSelfAttention) : Nat :=
  m.num_attention_heads * m.attention_head_size

/-- The base query projection self.query. -/
def LoraRobertaSelfAttention.query (m : LoraRobertaSelfAttention) (x : List (List ℚ)) :
    List (List ℚ) := linearForward m.query_weight m.query_bias x

/-- The base key projection self.key. -/
def LoraRobertaSelfAttention.key (m : LoraRobertaSelfAttention) (x : List (List ℚ)) :
    List (List ℚ) := linearForward m.key_weight m.key_bias x

/-- The base value projection self.value. -/
def LoraRobertaSelfAttention.value (m : LoraRobertaSelfAttention) (x : List (List ℚ)) :
    List (List ℚ) := linearForward m.value_weight m.value_bias x

/-- Embeds LoraRobertaSelfAttention.lora_query (src lines 39-45): the base
query projection plus F.linear of x against the product of the two query
low-rank factors, recomputed on every call. -/
def LoraRobertaSelfAttention.lora_query (m : LoraRobertaSelfAttention) (x : List (List ℚ)) :
    List (List ℚ) :=
  matAdd (m.query x) (fLinear x (matMulMat m.lora_query_matrix_B m.lora_query_matrix_A))

/-- Embeds LoraRobertaSelfAttention.lora_value (src lines 47-53). -/
def LoraRobertaSelfAttention.lora_value (m : LoraRobertaSelfAttention) (x : List (List ℚ)) :
    List (List ℚ) :=
  matAdd (m.value x) (fLinear x (matMulMat m.lora_value_matrix_B m.lora_value_matrix_A))

/-- Base-module state before the LoRA constructor runs: everything of
LoraRobertaSelfAttention except the four LoRA matrices. -/
structure RobertaSelfAttentionBase where
  num_attention_heads : Nat
  attention_head_size : Nat
  query_weight : List (List ℚ)
  query_bias : List ℚ
  key_weight : List (List ℚ)
  key_bias : List ℚ
  value_weight : List (List ℚ)
  value_bias : List ℚ
deriving DecidableEq

/-- Embeds LoraRobertaSelfAttention.__init__ (src lines 27-37): after the base
constructor, with d = all_head_size, the B matrices are allocated as
torch.zeros (d, r) and the A matrices receive the random torch.randn (r, d)
draws, which are modelled as arbitrary caller-supplied matrices. -/
def LoraRobertaSelfAttention.init (r : Nat) (base : RobertaSelfAttentionBase)
    (randA_q randA_v : List (List ℚ)) : LoraRobertaSelfAttention :=
  let d := base.num_attention_heads * base.attention_head_size
  { num_attention_heads := base.num_attention_heads
    attention_head_size := base.attention_head_size
    query_weight := base.query_weight
    query_bias := base.query_bias
    key_weight := base.key_weight
    key_bias := base.key_bias
    value_weight := base.value_weight
    value_bias := base.value_bias
    lora_query_matrix_B := zerosMat d r
    lora_query_matrix_A := randA_q
    lora_value_matrix_B := zerosMat d r
    lora_value_matrix_A := randA_v }

/-- Embeds transpose_for_scores of the base module for one unbatched example:
a (seq, all_head_size) tensor is viewed as (seq, heads, head_size) and permuted
to (heads, seq, head_size). -/
def LoraRobertaSelfAttention.transpose_for_scores (m : LoraRobertaSelfAttention)
    (x : List (List ℚ)) : List (List (List ℚ)) :=
  (List.range m.num_attention_heads).map
    (fun h => x.map (fun row => (row.drop (h * m.attention_head_size)).take m.attention_head_size))

/-- torch.cat along dim 2 of a (batch, heads, seq, head_size) tensor, stated on
the unbatched (heads, seq, head_size) layout: per-head concatenation along the
sequence axis. -/
def catSeqDim (a b : List (List (List ℚ))) : List (List (List ℚ)) :=
  List.zipWith (fun x y => x ++ y) a b

/-- The forward arguments that determine key/value/mask selection
(src lines 55-63), for one unbatched example.  head_mask and output_attentions
do not participate in the selection and are omitted. -/
structure ForwardInputs where
  hidden_states : List (List ℚ)
  attention_mask : Option (List (List ℚ))
  encoder_hidden_states : Option (List (List ℚ))
  encoder_attention_mask : Option (List (List ℚ))
  past_key_value : Option (List (List (List ℚ)) × List (List (List ℚ)))
deriving DecidableEq

/-- Embeds the query/key/value/mask selection of the overridden forward
(src lines 68-95): computes mixed_query_layer via lora_query, dispatches on
cross-attention mode (encoder_hidden_states present) and cache presence
exactly as the if/elif chain does, and returns
(query_layer, key_layer, value_layer, effective attention mask). -/
def LoraRobertaSelfAttention.forwardSelect (m : LoraRobertaSelfAttention)
    (inp : ForwardInputs) :
    List (List (List ℚ)) × List (List (List ℚ)) × List (List (List ℚ)) ×
      Option (List (List ℚ)) :=
  let mixed_query_layer := m.lora_query inp.hidden_states
  let query_layer := m.transpose_for_scores mixed_query_layer
  match inp.encoder_hidden_states, inp.past_key_value with
  | some _, some pkv =>
      (query_layer, pkv.1, pkv.2, inp.encoder_attention_mask)
  | some enc, none =>
      (query_layer,
       m.transpose_for_scores (m.key enc),
       m.transpose_for_scores (m.lora_value enc),
       inp.encoder_attention_mask)
  | none, some pkv =>
      (query_layer,
       catSeqDim pkv.1 (m.transpose_for_scores (m.key inp.hidden_states)),
       catSeqDim pkv.2 (m.transpose_for_scores (m.lora_value inp.hidden_states)),
       inp.attention_mask)
  | none, none =>
      (query_layer,
       m.transpose_for_scores (m.key inp.hidden_states),
       m.transpose_for_scores (m.lora_value inp.hidden_states),
       inp.attention_mask)

/-! Structural layer: the module tree walked by LoraWrapperRobertaHelper.
Tensor contents are irrelevant to replacement and freezing, so each parameter
tensor is abstracted to a single rational value. -/

/-- One named parameter of a module: its name local to the owning module, its
tensor value (abstracted), and its requires_grad flag. -/
structure NamedParam where
  name : String
  value : ℚ
  requires_grad : Bool
deriving DecidableEq

/-- The Python classes a module in the walked tree can be an instance of.
LoraRobertaSelfAttention subclasses RobertaSelfAttention in the source, which
matters for isinstance checks. -/
inductive ModuleKind where
  | robertaSelfAttention
  | loraRobertaSelfAttention
  | otherModule
deriving DecidableEq

mutual
/-- A torch module: its Python class, its own parameters, and its named
children, mirroring nn.Module for the purposes of named_children,
named_parameters and state_dict. -/
inductive PyModule where
  | mk (kind : ModuleKind) (params : List NamedParam) (children : PyChildren)
/-- The named-children list of a module, as traversed by named_children. -/
inductive PyChildren where
  | nil
  | cons (name : String) (child : PyModule) (rest : PyChildren)
end

/-- The class of a module. -/
def PyModule.kind : PyModule → ModuleKind
  | .mk k _ _ => k

/-- The own parameters of a module. -/
def PyModule.params : PyModule → List NamedParam
  | .mk _ ps _ => ps

/-- The children of a module. -/
def PyModule.children : PyModule → PyChildren
  | .mk _ _ cs => cs

/-- Python isinstance (module, RobertaSelfAttention): true for the base class
and for its subclass LoraRobertaSelfAttention. -/
def isInstanceOfRobertaSelfAttention : ModuleKind → Bool
  | .robertaSelfAttention => true
  | .loraRobertaSelfAttention => true
  | .otherModule => false

/-- Dotted-name joining used by torch when flattening parameter names. -/
def joinName (pfx n : String) : String := if pfx = "" then n else pfx ++ "." ++ n

mutual
/-- nn.Module.named_parameters with a name prefix: own parameters first under
their full dotted names, then each child's parameters in order. -/
def PyModule.namedParameters (pfx : String) : PyModule → List NamedParam
  | .mk _ ps cs =>
      ps.map (fun p => { p with name := joinName pfx p.name }) ++
      PyChildren.namedParameters pfx cs
/-- named_parameters over a children list. -/
def PyChildren.namedParameters (pfx : String) : PyChildren → List NamedParam
  | .nil => []
  | .cons n c rest =>
      PyModule.namedParameters (joinName pfx n) c ++ PyChildren.namedParameters pfx rest
end

/-- nn.Module.state_dict of a module, flattened under dotted names; every
entry of these modules is a parameter, so it coincides with named_parameters
from an empty prefix. -/
def PyModule.stateDict (m : PyModule) : List NamedParam := m.namedParameters ""

/-! The freezing policy (src lines 297-313) and the stranded load-state code
that follows it in the same method body (src lines 315-352). -/

/-- The boolean condition of the if statement in
freeze_parameters_except_lora_and_bias (src lines 304-310), evaluated on a
full dotted parameter name. -/
def loraFreezeTrainable (train_biases train_embeddings train_layer_norms : Bool)
    (name : String) : Bool :=
  strContainsSub name "lora_" ||
  strContainsSub name "finetune_head_" ||
  (train_biases && strContainsSub name "bias") ||
  (train_embeddings && strContainsSub name "embeddings") ||
  (train_layer_norms && strContainsSub name "LayerNorm")

/-- One iteration of the freezing loop (src lines 303-313) applied to the
parameter whose full dotted name is fullName: sets requires_grad to true when
the policy condition holds and to false otherwise. -/
def freezeParamAt (train_biases train_embeddings train_layer_norms : Bool)
    (fullName : String) (p : NamedParam) : NamedParam :=
  if loraFreezeTrainable train_biases train_embeddings train_layer_norms fullName
  then { p with requires_grad := true }
  else { p with requires_grad := false }

mutual
/-- The freezing loop run over a whole module tree: every parameter's
requires_grad is reassigned according to the policy condition on its full
dotted name; names and values are untouched. -/
def PyModule.freezeParams (tb te tl : Bool) (pfx : String) : PyModule → PyModule
  | .mk k ps cs =>
      .mk k (ps.map (fun p => freezeParamAt tb te tl (joinName pfx p.name) p))
        (PyChildren.freezeParams tb te tl pfx cs)
/-- The freezing loop over a children list. -/
def PyChildren.freezeParams (tb te tl : Bool) (pfx : String) : PyChildren → PyChildren
  | .nil => .nil
  | .cons n c rest =>
      .cons n (PyModule.freezeParams tb te tl (joinName pfx n) c)
        (PyChildren.freezeParams tb te tl pfx rest)
end

/-- Python exceptions the embedded code can raise. -/
inductive PyError where
  | nameError (ident : String)
  | valueError (msg : String)
  | assertionError (msg : String)
  | modelNotFound (model_id : String)
deriving DecidableEq

/-- Minimal slice of the RobertaModel configuration recorded by the wrapper
(src lines 222-224). -/
structure RobertaConfig where
  hidden_size : Nat
  num_attention_heads : Nat
deriving DecidableEq

/-- State of a LoraWrapperRobertaHelper instance: the wrapped model tree, the
recorded configuration, the rank, the three training-inclusion flags
(src lines 226-229), and the replacement counter (src line 243). -/
structure LoraWrapperRobertaHelper where
  model : PyModule
  model_config : RobertaConfig
  lora_rank : Nat
  train_biases : Bool
  train_embeddings : Bool
  train_layer_norms : Bool
  nr_replaced_modules : Nat

/-- Embeds freeze_parameters_except_lora_and_bias in full (src lines 297-352):
the freezing loop runs over every named parameter of the model, and then the
stranded load-state body (whose def line is missing from the source) executes;
its first statement, the test on lora_parameters (src line 331), reads a name
that is bound nowhere, so the method mutates the flags and then raises
NameError.  The mutated wrapper is returned alongside the raised error. -/
def freeze_parameters_except_lora_and_bias (w : LoraWrapperRobertaHelper) :
    LoraWrapperRobertaHelper × Except PyError Unit :=
  ({ w with model := PyModule.freezeParams w.train_biases w.train_embeddings
              w.train_layer_norms "" w.model },
   Except.error (PyError.nameError "lora_parameters"))

/-! Module replacement (src lines 234-295). -/

/-- The names of the four LoRA parameters the constructor adds
(src lines 34-37). -/
def loraParamNames : List String :=
  ["lora_query_matrix_B", "lora_query_matrix_A",
   "lora_value_matrix_B", "lora_value_matrix_A"]

/-- Modelled from the spec: torch's load_state_dict with strict set to False
copies, for every parameter name of the target, the source value of the same
name when one exists, and tolerates extra or missing source keys (spec section
4.2, non-strict loading). -/
def load_state_dict_nonstrict (target source : List NamedParam) : List NamedParam :=
  target.map (fun p =>
    match source.find? (fun q => q.name == p.name) with
    | some q => { p with value := q.value }
    | none => p)

/-- Set equality of two key lists, embedding the Python comparison
set (keys_old) == set (keys_new). -/
def sameKeySet (a b : List String) : Bool :=
  a.all (fun k => b.contains k) && b.all (fun k => a.contains k)

/-- Rendering of a key set inside the assertion f-string; Python renders a set
of strings with braces and quotes; the exact ordering is irrelevant to the
claims and the source order is used. -/
def renderKeySet : List String → String
  | [] => "set()"
  | k :: ks =>
      "\x7b" ++ String.intercalate ", " ((k :: ks).map (fun s => "\x27" ++ s ++ "\x27")) ++ "\x7d"

/-- The assertion message of the integrity check (src lines 286-288),
containing both key sets. -/
def keysMismatchMsg (keysOld keysNew : List String) : String :=
  "Keys of the state dictionaries don\x27t match (ignoring lora parameters):\n\tExpected Parameters: " ++
  renderKeySet keysOld ++ "\n\tNew Parameters (w.o. LoRA): " ++ renderKeySet keysNew

mutual
/-- Embeds replace_multihead_attention_recursion (src lines 250-295) as a pure
transformation: walks the module, dispatching on each child. -/
def replace_multihead_attention_recursion (freshSD : Nat → List NamedParam)
    (count : Nat) : PyModule → Except PyError (PyModule × Nat)
  | .mk k ps cs =>
      match replaceChildren freshSD count cs with
      | .error e => .error e
      | .ok r => .ok (.mk k ps r.1, r.2)
/-- The loop body over named_children (src lines 262-295): an instance of
RobertaSelfAttention is counted and replaced by a fresh
LoraRobertaSelfAttention — freshSD n being the state dict the library
constructor produces for the n-th replacement — loaded non-strictly from the
old state dict, after the key integrity check; any other child is recursed
into, threading the replacement counter. -/
def replaceChildren (freshSD : Nat → List NamedParam) (count : Nat) :
    PyChildren → Except PyError (PyChildren × Nat)
  | .nil => .ok (.nil, count)
  | .cons nm child rest =>
      if isInstanceOfRobertaSelfAttention child.kind then
        let state_dict_old := child.stateDict
        let new_params := load_state_dict_nonstrict (freshSD count) state_dict_old
        let keys_old := state_dict_old.map (fun p => p.name)
        let keys_new := (new_params.map (fun p => p.name)).filter
          (fun kk => ! strStartsWith kk "lora_")
        if sameKeySet keys_old keys_new then
          match replaceChildren freshSD (count + 1) rest with
          | .error e => .error e
          | .ok r =>
              .ok (.cons nm (.mk .loraRobertaSelfAttention new_params .nil) r.1, r.2)
        else
          .error (.assertionError (keysMismatchMsg keys_old keys_new))
      else
        match replace_multihead_attention_recursion freshSD count child with
        | .error e => .error e
        | .ok rc =>
            match replaceChildren freshSD rc.2 rest with
            | .error e => .error e
            | .ok rr => .ok (.cons nm rc.1 rr.1, rr.2)
end

/-- Embeds replace_multihead_attention (src lines 234-248): resets the
replacement counter and runs the recursion from the model root (the verbose
print is I/O only and has no embedded effect). -/
def replace_multihead_attention (freshSD : Nat → List NamedParam)
    (w : LoraWrapperRobertaHelper) : Except PyError LoraWrapperRobertaHelper :=
  match replace_multihead_attention_recursion freshSD 0 w.model with
  | .error e => .error e
  | .ok r => .ok { w with model := r.1, nr_replaced_modules := r.2 }

/-- Embeds LoraWrapperRobertaHelper.__init__ (src lines 186-232): the
pretrained model is resolved by the external loading collaborator — given
here as its outcome, an Except value per the spec contract
load (identifier) -> (weights, config) — then the configuration and flags
are recorded, module replacement runs, and finally
freeze_parameters_except_lora_and_bias runs, whose stranded tail always
raises; any raised error propagates out of construction. -/
def LoraWrapperRobertaHelper.construct
    (from_pretrained : Except PyError (PyModule × RobertaConfig))
    (freshSD : Nat → List NamedParam)
    (lora_rank : Nat) (train_biases train_embedding train_layer_norms : Bool) :
    Except PyError LoraWrapperRobertaHelper :=
  match from_pretrained with
  | .error e => .error e
  | .ok mc =>
      let w0 : LoraWrapperRobertaHelper :=
        { model := mc.1, model_config := mc.2, lora_rank := lora_rank
          train_biases := train_biases, train_embeddings := train_embedding
          train_layer_norms := train_layer_norms, nr_replaced_modules := 0 }
      match replace_multihead_attention freshSD w0 with
      | .error e => .error e
      | .ok w1 =>
          let fr := freeze_parameters_except_lora_and_bias w1
          match fr.2 with
          | .error e => .error e
          | .ok _ => .ok fr.1

/-! Persistence (spec section 4.2, Persistence).  The save operation is absent
from src/, and the load entry point is stranded inside
freeze_parameters_except_lora_and_bias without its def line; the flat saved
mapping and its two metadata fields are modelled from the spec contract and
from the field names the stranded body reads (src lines 345-348). -/

/-- An entry of a serialized state mapping: a tensor value, or one of the two
scalar metadata fields merged into the same flat mapping. -/
inductive SavedEntry where
  | tensor (v : ℚ)
  | strVal (s : String)
  | natVal (n : Nat)
deriving DecidableEq

/-- Modelled from the spec: the save operation (absent from src/) serializes
the full parameter state as a flat name-to-tensor mapping together with the
model_id and lora_rank metadata fields that the stranded load body reads
(src lines 345-348). -/
def save_lora_state_dict (w : LoraWrapperRobertaHelper) (model_id : String) :
    List (String × SavedEntry) :=
  (w.model.namedParameters "").map (fun p => (p.name, SavedEntry.tensor p.value)) ++
  [("model_id", SavedEntry.strVal model_id), ("lora_rank", SavedEntry.natVal w.lora_rank)]

/-- Modelled from the spec: the final loading step of the persistence round
trip (the stranded body's non-strict load_state_dict call, src line 351)
copies into the freshly reconstructed wrapper every parameter value present
by name as a tensor in the saved state, tolerating extra and missing keys. -/
def loadSavedEntries (target : List NamedParam) (state : List (String × SavedEntry)) :
    List NamedParam :=
  target.map (fun p =>
    match state.find? (fun e => e.1 == p.name) with
    | some (_, SavedEntry.tensor v) => { p with value := v }
    | _ => p)

/-! Counting and reachability predicates used to state the replacement
claims. -/

mutual
/-- The number of submodules the replacement traversal replaces: children that
are isinstance of RobertaSelfAttention count one each and are not descended
into; all other children are descended into. -/
def replaceableCountM : PyModule → Nat
  | .mk _ _ cs => replaceableCountC cs
/-- Replacement count over a children list. -/
def replaceableCountC : PyChildren → Nat
  | .nil => 0
  | .cons _ c rest =>
      (if isInstanceOfRobertaSelfAttention c.kind then 1 else replaceableCountM c) +
      replaceableCountC rest
end

mutual
/-- True when no module reachable strictly below the root is an unadapted
RobertaSelfAttention instance. -/
def noRobertaDescM : PyModule → Bool
  | .mk _ _ cs => noRobertaDescC cs
/-- The same check over a children list. -/
def noRobertaDescC : PyChildren → Bool
  | .nil => true
  | .cons _ c rest =>
      (!(c.kind == ModuleKind.robertaSelfAttention) && noRobertaDescM c) &&
      noRobertaDescC rest
end

mutual
/-- True when no module reachable strictly below the root is already an
adapted LoraRobertaSelfAttention, as holds for a freshly loaded pretrained
model. -/
def noLoraDescM : PyModule → Bool
  | .mk _ _ cs => noLoraDescC cs
/-- The same check over a children list. -/
def noLoraDescC : PyChildren → Bool
  | .nil => true
  | .cons _ c rest =>
      (!(c.kind == ModuleKind.loraRobertaSelfAttention) && noLoraDescM c) &&
      noLoraDescC rest
end

mutual
/-- True when, along the exact shape of the replacement traversal, every
attention module the traversal will examine has a state-dict key set that is
set-equal to baseKeys. -/
def attnKeysMatchM (baseKeys : List String) : PyModule → Bool
  | .mk _ _ cs => attnKeysMatchC baseKeys cs
/-- The same check over a children list. -/
def attnKeysMatchC (baseKeys : List String) : PyChildren → Bool
  | .nil => true
  | .cons _ c rest =>
      (if isInstanceOfRobertaSelfAttention c.kind
       then sameKeySet (c.stateDict.map (fun p => p.name)) baseKeys
       else attnKeysMatchM baseKeys c) &&
      attnKeysMatchC baseKeys rest
end

/-- The keyword defaults of LoraWrapperRobertaHelper.__init__
(src lines 186-193). -/
structure InitArgs where
  model_id : String := "roberta-base"
  lora_rank : Nat := 8
  train_biases : Bool := true
  train_embedding : Bool := false
  train_layer_norms : Bool := true
deriving DecidableEq


theorem dotProd_replicate_zero_left (n : Nat) (v : List ℚ) :
    dotProd (List.replicate n 0) v = 0 := by
  induction n generalizing v with
  | zero => simp [dotProd]
  | succ k ih =>
    cases v with
    | nil => simp [dotProd]
    | cons a as =>
      have h := ih as
      simp [dotProd, List.replicate_succ] at h ⊢
      exact h

theorem dotProd_replicate_zero_right (v : List ℚ) (n : Nat) :
    dotProd v (List.replicate n 0) = 0 := by
  induction v generalizing n with
  | nil => simp [dotProd]
  | cons a as ih =>
    cases n with
    | zero => simp [dotProd]
    | succ k =>
      have h := ih k
      simp [dotProd, List.replicate_succ] at h ⊢
      exact h

theorem zipWith_add_replicate_zero (l : List ℚ) (n : Nat) (h : l.length ≤ n) :
    List.zipWith (fun a b => a + b) l (List.replicate n (0:ℚ)) = l := by
  induction l generalizing n with
  | nil => simp
  | cons a as ih =>
    cases n with
    | zero => simp at h
    | succ k =>
      simp only [List.replicate_succ, List.zipWith_cons_cons, add_zero]
      rw [ih k (by simpa using h)]

theorem matAdd_map_same (f g : List ℚ → List ℚ) (x : List (List ℚ))
    (h : ∀ row, List.zipWith (fun a b => a + b) (f row) (g row) = f row) :
    matAdd (x.map f) (x.map g) = x.map f := by
  induction x with
  | nil => simp [matAdd]
  | cons r rs ih => simp [matAdd] at ih ⊢; exact ⟨h r, ih⟩

theorem matAdd_linear_zero_delta (w : List (List ℚ)) (b : List ℚ)
    (x : List (List ℚ)) (d r : Nat) (a : List (List ℚ))
    (hw : w.length = d) (hb : b.length = d) :
    matAdd (linearForward w b x) (fLinear x (matMulMat (zerosMat d r) a)) =
      linearForward w b x := by
  have h1 : matMulMat (zerosMat d r) a =
      List.replicate d (List.replicate a.transpose.length (0:ℚ)) := by
    simp [matMulMat, zerosMat, List.map_replicate, dotProd_replicate_zero_left,
      List.map_const']
  rw [h1]
  have h2 : fLinear x (List.replicate d (List.replicate a.transpose.length (0:ℚ))) =
      x.map (fun _ => List.replicate d (0:ℚ)) := by
    simp [fLinear, List.map_replicate, dotProd_replicate_zero_right, List.map_const']
  rw [h2, linearForward]
  apply matAdd_map_same
  intro row
  apply zipWith_add_replicate_zero
  simp [hw, hb]


theorem load_state_dict_nonstrict_names (t s : List NamedParam) :
    (load_state_dict_nonstrict t s).map NamedParam.name = t.map NamedParam.name := by
  simp only [load_state_dict_nonstrict, List.map_map]
  apply List.map_congr_left
  intro p _
  cases h : s.find? (fun q => q.name == p.name) <;> simp [h]

theorem filter_base_lora (baseKeys : List String)
    (hbase : ∀ k ∈ baseKeys, strStartsWith k "lora_" = false) :
    (baseKeys ++ loraParamNames).filter (fun kk => ! strStartsWith kk "lora_") = baseKeys := by
  rw [List.filter_append]
  have h1 : baseKeys.filter (fun kk => ! strStartsWith kk "lora_") = baseKeys := by
    apply List.filter_eq_self.mpr
    intro a ha
    simp [hbase a ha]
  have h2 : loraParamNames.filter (fun kk => ! strStartsWith kk "lora_") = ([] : List String) := by
    decide
  simp [h1, h2]

theorem isInstance_false_ne_roberta (k : ModuleKind)
    (h : isInstanceOfRobertaSelfAttention k = false) :
    (k == ModuleKind.robertaSelfAttention) = false := by
  cases k
  · exact absurd h (by decide)
  · decide
  · decide


mutual
def replaceOkM (freshSD : Nat → List NamedParam) (baseKeys : List String)
    (hfresh : ∀ n, (freshSD n).map NamedParam.name = baseKeys ++ loraParamNames)
    (hbase : ∀ k ∈ baseKeys, strStartsWith k "lora_" = false) :
    (m : PyModule) → (count : Nat) → noLoraDescM m = true →
    attnKeysMatchM baseKeys m = true →
    ∃ m2, replace_multihead_attention_recursion freshSD count m =
        .ok (m2, count + replaceableCountM m) ∧
      noRobertaDescM m2 = true ∧ m2.kind = m.kind
  | .mk k ps cs, count, hnl, hkm => by
    obtain ⟨cs2, heq, hnr⟩ :=
      replaceOkC freshSD baseKeys hfresh hbase cs count
        (by simpa [noLoraDescM] using hnl) (by simpa [attnKeysMatchM] using hkm)
    refine ⟨.mk k ps cs2, ?_, ?_, rfl⟩
    · simp [replace_multihead_attention_recursion, heq, replaceableCountM]
    · simpa [noRobertaDescM] using hnr
def replaceOkC (freshSD : Nat → List NamedParam) (baseKeys : List String)
    (hfresh : ∀ n, (freshSD n).map NamedParam.name = baseKeys ++ loraParamNames)
    (hbase : ∀ k ∈ baseKeys, strStartsWith k "lora_" = false) :
    (cs : PyChildren) → (count : Nat) → noLoraDescC cs = true →
    attnKeysMatchC baseKeys cs = true →
    ∃ cs2, replaceChildren freshSD count cs = .ok (cs2, count + replaceableCountC cs) ∧
      noRobertaDescC cs2 = true
  | .nil, count, _, _ => ⟨.nil, by simp [replaceChildren, replaceableCountC], rfl⟩
  | .cons nm child rest, count, hnl, hkm => by
    rw [noLoraDescC, Bool.and_eq_true, Bool.and_eq_true] at hnl
    obtain ⟨⟨hnlk, hnlc⟩, hnlr⟩ := hnl
    rw [attnKeysMatchC, Bool.and_eq_true] at hkm
    obtain ⟨hkmc, hkmr⟩ := hkm
    by_cases hins : isInstanceOfRobertaSelfAttention child.kind = true
    · -- attention child: replaced
      rw [if_pos hins] at hkmc
      obtain ⟨rest2, heqr, hnrr⟩ :=
        replaceOkC freshSD baseKeys hfresh hbase rest (count + 1) hnlr hkmr
      have hkeys :
          ((load_state_dict_nonstrict (freshSD count) child.stateDict).map
            (fun p => p.name)).filter (fun kk => ! strStartsWith kk "lora_") = baseKeys := by
        have := load_state_dict_nonstrict_names (freshSD count) child.stateDict
        simp only [show (fun (p : NamedParam) => p.name) = NamedParam.name from rfl]
        rw [this, hfresh count, filter_base_lora baseKeys hbase]
      refine ⟨.cons nm
          (.mk .loraRobertaSelfAttention
            (load_state_dict_nonstrict (freshSD count) child.stateDict) .nil) rest2,
        ?_, ?_⟩
      · rw [replaceChildren, if_pos hins]
        simp only [hkeys]
        have hsame : sameKeySet (child.stateDict.map (fun p => p.name)) baseKeys = true := by
          simpa [show (fun (p : NamedParam) => p.name) = NamedParam.name from rfl] using hkmc
        rw [if_pos hsame, heqr]
        simp [replaceableCountC, hins]
        omega
      · simp [noRobertaDescC, noRobertaDescM, hnrr, PyModule.kind]
    · -- other child: recursed into
      rw [Bool.not_eq_true] at hins
      rw [if_neg (by simp [hins])] at hkmc
      obtain ⟨c2, heqc, hnrc, hkc⟩ :=
        replaceOkM freshSD baseKeys hfresh hbase child count hnlc hkmc
      obtain ⟨rest2, heqr, hnrr⟩ :=
        replaceOkC freshSD baseKeys hfresh hbase rest (count + replaceableCountM child) hnlr hkmr
      refine ⟨.cons nm c2 rest2, ?_, ?_⟩
      · rw [replaceChildren, if_neg (by simp [hins])]
        simp [heqc, heqr, replaceableCountC, hins]
        omega
      · rw [noRobertaDescC, Bool.and_eq_true, Bool.and_eq_true]
        refine ⟨⟨?_, hnrc⟩, hnrr⟩
        rw [hkc]
        simp [isInstance_false_ne_roberta child.kind hins]
end


theorem freezeParamAt_name (tb te tl : Bool) (fn : String) (p : NamedParam) :
    (freezeParamAt tb te tl fn p).name = p.name := by
  simp only [freezeParamAt]
  split <;> rfl

theorem freezeParamAt_value (tb te tl : Bool) (fn : String) (p : NamedParam) :
    (freezeParamAt tb te tl fn p).value = p.value := by
  simp only [freezeParamAt]
  split <;> rfl

theorem freezeParamAt_idem (tb te tl : Bool) (fn : String) (p : NamedParam) :
    freezeParamAt tb te tl fn (freezeParamAt tb te tl fn p) = freezeParamAt tb te tl fn p := by
  simp only [freezeParamAt]
  split <;> simp

mutual
def namedParameters_freezeParams_M (tb te tl : Bool) (pfx : String) :
    (m : PyModule) →
    (PyModule.freezeParams tb te tl pfx m).namedParameters pfx =
      (m.namedParameters pfx).map (fun p => freezeParamAt tb te tl p.name p)
  | .mk k ps cs => by
    have hc := namedParameters_freezeParams_C tb te tl pfx cs
    simp only [PyModule.freezeParams, PyModule.namedParameters, hc, List.map_append,
      List.map_map]
    congr 1
    apply List.map_congr_left
    intro p _
    simp [freezeParamAt, apply_ite]
def namedParameters_freezeParams_C (tb te tl : Bool) (pfx : String) :
    (cs : PyChildren) →
    (PyChildren.freezeParams tb te tl pfx cs).namedParameters pfx =
      (PyChildren.namedParameters pfx cs).map (fun p => freezeParamAt tb te tl p.name p)
  | .nil => by
    simp [PyChildren.freezeParams, PyChildren.namedParameters]
  | .cons n c rest => by
    have h1 := namedParameters_freezeParams_M tb te tl (joinName pfx n) c
    have h2 := namedParameters_freezeParams_C tb te tl pfx rest
    simp [PyChildren.freezeParams, PyChildren.namedParameters, h1, h2, List.map_append]
end

mutual
def freezeParams_idem_M (tb te tl : Bool) (pfx : String) : (m : PyModule) →
    PyModule.freezeParams tb te tl pfx (PyModule.freezeParams tb te tl pfx m) =
      PyModule.freezeParams tb te tl pfx m
  | .mk k ps cs => by
    have hc := freezeParams_idem_C tb te tl pfx cs
    simp only [PyModule.freezeParams, List.map_map, hc, PyModule.mk.injEq, and_true,
      true_and]
    apply List.map_congr_left
    intro p _
    show freezeParamAt tb te tl
      (joinName pfx (freezeParamAt tb te tl (joinName pfx p.name) p).name)
      (freezeParamAt tb te tl (joinName pfx p.name) p) =
      freezeParamAt tb te tl (joinName pfx p.name) p
    rw [freezeParamAt_name]
    exact freezeParamAt_idem tb te tl (joinName pfx p.name) p
def freezeParams_idem_C (tb te tl : Bool) (pfx : String) : (cs : PyChildren) →
    PyChildren.freezeParams tb te tl pfx (PyChildren.freezeParams tb te tl pfx cs) =
      PyChildren.freezeParams tb te tl pfx cs
  | .nil => rfl
  | .cons n c rest => by
    have h1 := freezeParams_idem_M tb te tl (joinName pfx n) c
    have h2 := freezeParams_idem_C tb te tl pfx rest
    simp [PyChildren.freezeParams, h1, h2]
end


theorem find_in_saved (meta : List (String × SavedEntry)) (p : NamedParam) :
    ∀ wp : List NamedParam, (wp.map NamedParam.name).Nodup → p ∈ wp →
    (wp.map (fun q => (q.name, SavedEntry.tensor q.value)) ++ meta).find?
        (fun e => e.1 == p.name) = some (p.name, SavedEntry.tensor p.value) := by
  intro wp
  induction wp with
  | nil => intro _ hp; cases hp
  | cons q rest ih =>
    intro hnodup hp
    rw [List.map_cons, List.nodup_cons] at hnodup
    rcases List.mem_cons.1 hp with rfl | hp
    · simp [List.find?_cons_of_pos]
    · have hqp : q.name ≠ p.name := by
        intro hcontra
        have hmem : p.name ∈ rest.map NamedParam.name := List.mem_map_of_mem _ hp
        exact hnodup.1 (hcontra ▸ hmem)
      rw [List.map_cons, List.cons_append, List.find?_cons_of_neg]
      · exact ih hnodup.2 hp
      · simp [hqp]

theorem loadSaved_values (saved : List (String × SavedEntry)) :
    ∀ (fresh wp : List NamedParam),
    fresh.map NamedParam.name = wp.map NamedParam.name →
    (∀ p ∈ wp, saved.find? (fun e => e.1 == p.name) = some (p.name, SavedEntry.tensor p.value)) →
    (loadSavedEntries fresh saved).map NamedParam.value = wp.map NamedParam.value := by
  intro fresh
  induction fresh with
  | nil =>
    intro wp hn _
    cases wp with
    | nil => rfl
    | cons _ _ => simp at hn
  | cons f fr ih =>
    intro wp hn hfind
    cases wp with
    | nil => simp at hn
    | cons w wr =>
      rw [List.map_cons, List.map_cons, List.cons.injEq] at hn
      obtain ⟨hn1, hn2⟩ := hn
      have hw := hfind w (List.mem_cons_self w wr)
      have htail := ih wr hn2 (fun p hp => hfind p (List.mem_cons_of_mem w hp))
      simp only [loadSavedEntries, List.map_cons] at htail ⊢
      rw [hn1, hw, List.cons.injEq]
      exact ⟨rfl, htail⟩


theorem freezeParamAt_grad (tb te tl : Bool) (fn : String) (p : NamedParam) :
    (freezeParamAt tb te tl fn p).requires_grad = loraFreezeTrainable tb te tl fn := by
  cases h : loraFreezeTrainable tb te tl fn <;> simp [freezeParamAt, h]

/-- C1: for a freshly constructed LoraRobertaSelfAttention — B matrices
initialized to all zeros, A matrices to arbitrary random values — lora_query
agrees with the base query projection and lora_value with the base value
projection on every input, because the injected delta weight B times A is
exactly zero at initialization.  The hypotheses record the library shapes:
the query and value weights and biases have all_head_size rows. -/
theorem lora_zero_init_identity (r : Nat) (base : RobertaSelfAttentionBase)
    (aq av : List (List ℚ)) (x : List (List ℚ))
    (hqw : base.query_weight.length = base.num_attention_heads * base.attention_head_size)
    (hqb : base.query_bias.length = base.num_attention_heads * base.attention_head_size)
    (hvw : base.value_weight.length = base.num_attention_heads * base.attention_head_size)
    (hvb : base.value_bias.length = base.num_attention_heads * base.attention_head_size) :
    (LoraRobertaSelfAttention.init r base aq av).lora_query x =
      (LoraRobertaSelfAttention.init r base aq av).query x ∧
    (LoraRobertaSelfAttention.init r base aq av).lora_value x =
      (LoraRobertaSelfAttention.init r base aq av).value x := by
  constructor
  · simp only [LoraRobertaSelfAttention.lora_query, LoraRobertaSelfAttention.init,
      LoraRobertaSelfAttention.query]
    exact matAdd_linear_zero_delta base.query_weight base.query_bias x _ r aq hqw hqb
  · simp only [LoraRobertaSelfAttention.lora_value, LoraRobertaSelfAttention.init,
      LoraRobertaSelfAttention.value]
    exact matAdd_linear_zero_delta base.value_weight base.value_bias x _ r av hvw hvb

/-- Witness for C1 at a concrete one-head module of width 2 with rank 1. -/
theorem lora_zero_init_identity_witness :
    (LoraRobertaSelfAttention.init 1
        ⟨1, 2, [[1, 0], [0, 1]], [1, 2], [[1, 1], [2, 2]], [3, 4], [[5, 6], [7, 8]], [9, 10]⟩
        [[1, 2]] [[3, 4]]).lora_query [[1, 1]] =
      (LoraRobertaSelfAttention.init 1
        ⟨1, 2, [[1, 0], [0, 1]], [1, 2], [[1, 1], [2, 2]], [3, 4], [[5, 6], [7, 8]], [9, 10]⟩
        [[1, 2]] [[3, 4]]).query [[1, 1]] ∧
    (LoraRobertaSelfAttention.init 1
        ⟨1, 2, [[1, 0], [0, 1]], [1, 2], [[1, 1], [2, 2]], [3, 4], [[5, 6], [7, 8]], [9, 10]⟩
        [[1, 2]] [[3, 4]]).lora_value [[1, 1]] =
      (LoraRobertaSelfAttention.init 1
        ⟨1, 2, [[1, 0], [0, 1]], [1, 2], [[1, 1], [2, 2]], [3, 4], [[5, 6], [7, 8]], [9, 10]⟩
        [[1, 2]] [[3, 4]]).value [[1, 1]] :=
  lora_zero_init_identity 1
    ⟨1, 2, [[1, 0], [0, 1]], [1, 2], [[1, 1], [2, 2]], [3, 4], [[5, 6], [7, 8]], [9, 10]⟩
    [[1, 2]] [[3, 4]] [[1, 1]] (by decide) (by decide) (by decide) (by decide)

/-- C2 (code bug): construction with a resolvable model identifier does not
succeed: after the pretrained model loads and module replacement passes its
integrity check, the stranded load-state body inside
freeze_parameters_except_lora_and_bias raises NameError on the unbound name
lora_parameters — an exception beyond the two fatal conditions the claim
allows.  Evaluated on a concrete resolvable one-layer model. -/
theorem construct_raises_name_error :
    LoraWrapperRobertaHelper.construct
      (Except.ok (.mk .otherModule []
          (.cons "attn" (.mk .robertaSelfAttention [⟨"query.weight", 1, true⟩] .nil) .nil),
        ⟨768, 12⟩))
      (fun _ => [⟨"query.weight", 0, true⟩, ⟨"lora_query_matrix_B", 0, true⟩])
      8 true false true =
      Except.error (PyError.nameError "lora_parameters") := by rfl

/-- C3: after the freezing policy loop runs, a named parameter of the
wrapped model is trainable (requires_grad true) iff its full name contains
lora_, or finetune_head_, or bias with the biases flag set, or embeddings
with the embeddings flag set, or LayerNorm with the layer-norms flag set;
all other parameters are frozen. -/
theorem freeze_policy_classification (w : LoraWrapperRobertaHelper) (p : NamedParam)
    (hp : p ∈ (freeze_parameters_except_lora_and_bias w).1.model.namedParameters "") :
    p.requires_grad = true ↔
      (strContainsSub p.name "lora_" = true ∨
       strContainsSub p.name "finetune_head_" = true ∨
       (w.train_biases = true ∧ strContainsSub p.name "bias" = true) ∨
       (w.train_embeddings = true ∧ strContainsSub p.name "embeddings" = true) ∨
       (w.train_layer_norms = true ∧ strContainsSub p.name "LayerNorm" = true)) := by
  simp only [freeze_parameters_except_lora_and_bias] at hp
  rw [namedParameters_freezeParams_M] at hp
  obtain ⟨q, hq, rfl⟩ := List.mem_map.1 hp
  rw [freezeParamAt_name, freezeParamAt_grad]
  simp only [loraFreezeTrainable, Bool.or_eq_true, Bool.and_eq_true]
  tauto

/-- Witness for C3: a parameter named encoder.bias under flags
(true, false, true) is classified trainable. -/
theorem freeze_policy_classification_witness :
    (true = true ↔
      (strContainsSub "encoder.bias" "lora_" = true ∨
       strContainsSub "encoder.bias" "finetune_head_" = true ∨
       (true = true ∧ strContainsSub "encoder.bias" "bias" = true) ∨
       (false = true ∧ strContainsSub "encoder.bias" "embeddings" = true) ∨
       (true = true ∧ strContainsSub "encoder.bias" "LayerNorm" = true))) :=
  freeze_policy_classification
    ⟨.mk .otherModule [⟨"encoder.bias", 1, false⟩] .nil, ⟨768, 12⟩, 8, true, false, true, 0⟩
    ⟨"encoder.bias", 1, true⟩ (by decide)

/-- C4: the integrity check of module replacement: when a
RobertaSelfAttention child is replaced, replacement proceeds exactly when the
old state-dict key set equals the new module's key set with lora_-prefixed
names excluded; on a mismatch the traversal aborts immediately with an
assertion error whose message contains both rendered key sets. -/
theorem integrity_check (freshSD : Nat → List NamedParam) (count : Nat) (nm : String)
    (child : PyModule) (rest : PyChildren)
    (hk : isInstanceOfRobertaSelfAttention child.kind = true) :
    (sameKeySet (child.stateDict.map (fun p => p.name))
        (((load_state_dict_nonstrict (freshSD count) child.stateDict).map
          (fun p => p.name)).filter (fun kk => ! strStartsWith kk "lora_")) = false →
      replaceChildren freshSD count (.cons nm child rest) =
        .error (.assertionError (keysMismatchMsg
          (child.stateDict.map (fun p => p.name))
          (((load_state_dict_nonstrict (freshSD count) child.stateDict).map
            (fun p => p.name)).filter (fun kk => ! strStartsWith kk "lora_"))))) ∧
    (∀ res, replaceChildren freshSD count (.cons nm child rest) = .ok res →
      sameKeySet (child.stateDict.map (fun p => p.name))
        (((load_state_dict_nonstrict (freshSD count) child.stateDict).map
          (fun p => p.name)).filter (fun kk => ! strStartsWith kk "lora_")) = true) ∧
    (∀ a b : List String, ∃ pre mid : String,
      keysMismatchMsg a b = pre ++ renderKeySet a ++ (mid ++ renderKeySet b)) := by
  refine ⟨?_, ?_, ?_⟩
  · intro hfalse
    rw [replaceChildren, if_pos hk, if_neg (by simp [hfalse])]
  · intro res hok
    by_contra hfalse
    rw [Bool.not_eq_true] at hfalse
    rw [replaceChildren, if_pos hk, if_neg (by simp [hfalse])] at hok
    cases hok
  · intro a b
    refine ⟨"Keys of the state dictionaries don\x27t match (ignoring lora parameters):\n\tExpected Parameters: ",
      "\n\tNew Parameters (w.o. LoRA): ", ?_⟩
    simp [keysMismatchMsg, String.append_assoc]

/-- Witness for C4: a deliberately mismatched fresh layer (empty state
dict) triggers the assertion error carrying both key sets. -/
theorem integrity_check_witness :
    replaceChildren (fun _ => []) 0
      (.cons "attn" (.mk .robertaSelfAttention [⟨"query.weight", 1, true⟩] .nil) .nil) =
      .error (.assertionError (keysMismatchMsg ["query.weight"] [])) :=
  (integrity_check (fun _ => []) 0 "attn"
    (.mk .robertaSelfAttention [⟨"query.weight", 1, true⟩] .nil) .nil (by decide)).1 (by decide)

/-- C5: on a module tree holding no already-adapted module (as produced by
the pretrained loader) whose attention modules carry the base key set, the
depth-first replacement succeeds, replaces exactly the reachable
RobertaSelfAttention instances without recursing into the replacements,
returns a replacement count equal to the number of attention layers, and
leaves zero unadapted attention modules reachable. -/
theorem replacement_completeness (freshSD : Nat → List NamedParam) (baseKeys : List String)
    (m : PyModule)
    (hfresh : ∀ n, (freshSD n).map NamedParam.name = baseKeys ++ loraParamNames)
    (hbase : ∀ k ∈ baseKeys, strStartsWith k "lora_" = false)
    (hnl : noLoraDescM m = true)
    (hkm : attnKeysMatchM baseKeys m = true) :
    ∃ m2, replace_multihead_attention_recursion freshSD 0 m =
        .ok (m2, replaceableCountM m) ∧ noRobertaDescM m2 = true := by
  obtain ⟨m2, heq, hnr, _⟩ := replaceOkM freshSD baseKeys hfresh hbase m 0 hnl hkm
  exact ⟨m2, by simpa using heq, hnr⟩

/-- Witness for C5: a nested one-attention-layer tree is fully adapted with
replacement count one. -/
theorem replacement_completeness_witness :
    ∃ m2, replace_multihead_attention_recursion
        (fun _ => [⟨"query.weight", 0, true⟩, ⟨"lora_query_matrix_B", 0, true⟩,
          ⟨"lora_query_matrix_A", 0, true⟩, ⟨"lora_value_matrix_B", 0, true⟩,
          ⟨"lora_value_matrix_A", 0, true⟩]) 0
        (.mk .otherModule []
          (.cons "encoder" (.mk .otherModule []
            (.cons "attn" (.mk .robertaSelfAttention [⟨"query.weight", 1, true⟩] .nil) .nil))
            .nil)) =
      .ok (m2, replaceableCountM (.mk .otherModule []
          (.cons "encoder" (.mk .otherModule []
            (.cons "attn" (.mk .robertaSelfAttention [⟨"query.weight", 1, true⟩] .nil) .nil))
            .nil))) ∧ noRobertaDescM m2 = true :=
  replacement_completeness _ ["query.weight"] _ (fun _ => rfl) (by decide) (by decide) (by decide)

/-- C6: in the adapted forward pass, cross-attention without a cached past
takes the key from the base (unadapted) key projection of the encoder hidden
states and the value from lora_value of the encoder states, substituting the
cross-attention mask for the attention mask; self-attention with a cached
past takes key and value from the current hidden states (base key projection
and lora_value respectively) and concatenates each with the corresponding
cached tensor along the sequence axis. -/
theorem forward_branch_selection (m : LoraRobertaSelfAttention)
    (hs enc : List (List ℚ)) (am eam : Option (List (List ℚ)))
    (pk pv : List (List (List ℚ))) :
    m.forwardSelect ⟨hs, am, some enc, eam, none⟩ =
      (m.transpose_for_scores (m.lora_query hs),
       m.transpose_for_scores (m.key enc),
       m.transpose_for_scores (m.lora_value enc),
       eam) ∧
    m.forwardSelect ⟨hs, am, none, eam, some (pk, pv)⟩ =
      (m.transpose_for_scores (m.lora_query hs),
       catSeqDim pk (m.transpose_for_scores (m.key hs)),
       catSeqDim pv (m.transpose_for_scores (m.lora_value hs)),
       am) :=
  ⟨rfl, rfl⟩

/-- C7 (code bug): no load entry point exists in the source: the load-state
body is stranded inside freeze_parameters_except_lora_and_bias without its
def line, so invoking the method containing it raises NameError on the
unbound name lora_parameters instead of performing any of the claimed
path-or-state loading behavior. -/
theorem stranded_load_body_raises_name_error :
    (freeze_parameters_except_lora_and_bias
      { model := .mk .otherModule [⟨"embeddings.word_embeddings.weight", 5, true⟩] .nil,
        model_config := ⟨768, 12⟩, lora_rank := 8, train_biases := true,
        train_embeddings := false, train_layer_norms := true,
        nr_replaced_modules := 12 }).2 =
      Except.error (PyError.nameError "lora_parameters") := rfl

/-- C8 (spec-modelled persistence): saving a wrapper's full parameter state
with model_id and lora_rank metadata and loading it non-strictly into a
wrapper reconstructed with the same architecture — the same parameter names,
as forced by reconstructing from the stored metadata — restores every
parameter value exactly, and any forward computation depending only on the
parameter values then produces identical output.  The no-collision
hypotheses keep the flat metadata keys distinct from parameter names, the
ambiguity the spec flags as an open question. -/
theorem save_load_round_trip (w : LoraWrapperRobertaHelper) (fresh : List NamedParam)
    (model_id : String)
    (hnames : fresh.map NamedParam.name = (w.model.namedParameters "").map NamedParam.name)
    (hnodup : ((w.model.namedParameters "").map NamedParam.name).Nodup)
    (_hmid : "model_id" ∉ (w.model.namedParameters "").map NamedParam.name)
    (_hrank : "lora_rank" ∉ (w.model.namedParameters "").map NamedParam.name) :
    (loadSavedEntries fresh (save_lora_state_dict w model_id)).map NamedParam.value =
      (w.model.namedParameters "").map NamedParam.value ∧
    ∀ (fwd : List NamedParam → List (List ℚ) → List (List ℚ)) (x : List (List ℚ)),
      (∀ ps qs y, ps.map NamedParam.value = qs.map NamedParam.value → fwd ps y = fwd qs y) →
      fwd (loadSavedEntries fresh (save_lora_state_dict w model_id)) x =
        fwd (w.model.namedParameters "") x := by
  have hv : (loadSavedEntries fresh (save_lora_state_dict w model_id)).map NamedParam.value =
      (w.model.namedParameters "").map NamedParam.value := by
    apply loadSaved_values _ _ _ hnames
    intro p hp
    exact find_in_saved _ p _ hnodup hp
  exact ⟨hv, fun fwd x hf => hf _ _ x hv⟩

/-- Witness for C8: a one-parameter wrapper round-trips its value 3 into a
fresh wrapper initialized with value 0. -/
theorem save_load_round_trip_witness :
    (loadSavedEntries [⟨"a.weight", (0:ℚ), false⟩]
        (save_lora_state_dict
          ⟨.mk .otherModule [⟨"a.weight", 3, true⟩] .nil, ⟨768, 12⟩, 4, true, false, true, 0⟩
          "roberta-base")).map NamedParam.value =
      [(3:ℚ)] :=
  (save_load_round_trip
    ⟨.mk .otherModule [⟨"a.weight", 3, true⟩] .nil, ⟨768, 12⟩, 4, true, false, true, 0⟩
    [⟨"a.weight", (0:ℚ), false⟩] "roberta-base" rfl (by decide) (by decide) (by decide)).1

/-- C9: the freezing policy is an idempotent re-classification: running
freeze_parameters_except_lora_and_bias on its own output yields the identical
wrapper-and-outcome pair, and a run changes no parameter name or value —
only requires_grad flags are reassigned. -/
theorem freeze_policy_idempotent (w : LoraWrapperRobertaHelper) :
    freeze_parameters_except_lora_and_bias ((freeze_parameters_except_lora_and_bias w).1) =
      freeze_parameters_except_lora_and_bias w ∧
    ((freeze_parameters_except_lora_and_bias w).1.model.namedParameters "").map
        (fun p => (p.name, p.value)) =
      (w.model.namedParameters "").map (fun p => (p.name, p.value)) := by
  constructor
  · simp [freeze_parameters_except_lora_and_bias, freezeParams_idem_M]
  · simp only [freeze_parameters_except_lora_and_bias]
    rw [namedParameters_freezeParams_M, List.map_map]
    apply List.map_congr_left
    intro p _
    simp [freezeParamAt_name, freezeParamAt_value]

/-- C10: the construction defaults are model_id roberta-base, lora_rank 8,
train_biases true, train_embedding false, train_layer_norms true; under
these defaults a parameter whose name contains bias or LayerNorm is
classified trainable, while an embedding parameter matching no other rule is
frozen. -/
theorem default_init_args :
    ({} : InitArgs).model_id = "roberta-base" ∧
    ({} : InitArgs).lora_rank = 8 ∧
    ({} : InitArgs).train_biases = true ∧
    ({} : InitArgs).train_embedding = false ∧
    ({} : InitArgs).train_layer_norms = true ∧
    (∀ nm p, strContainsSub nm "bias" = true →
      (freezeParamAt ({} : InitArgs).train_biases ({} : InitArgs).train_embedding
        ({} : InitArgs).train_layer_norms nm p).requires_grad = true) ∧
    (∀ nm p, strContainsSub nm "LayerNorm" = true →
      (freezeParamAt ({} : InitArgs).train_biases ({} : InitArgs).train_embedding
        ({} : InitArgs).train_layer_norms nm p).requires_grad = true) ∧
    (∀ nm p, strContainsSub nm "embeddings" = true → strContainsSub nm "lora_" = false →
      strContainsSub nm "finetune_head_" = false → strContainsSub nm "bias" = false →
      strContainsSub nm "LayerNorm" = false →
      (freezeParamAt ({} : InitArgs).train_biases ({} : InitArgs).train_embedding
        ({} : InitArgs).train_layer_norms nm p).requires_grad = false) := by
  refine ⟨rfl, rfl, rfl, rfl, rfl, ?_, ?_, ?_⟩ <;> intro nm p <;> intros <;>
    simp_all [freezeParamAt_grad, loraFreezeTrainable]

/-- Witness for C10: a dense-layer bias is trainable and the word-embedding
weight is frozen under the default flags. -/
theorem default_init_args_witness :
    (freezeParamAt ({} : InitArgs).train_biases ({} : InitArgs).train_embedding
      ({} : InitArgs).train_layer_norms "encoder.layer.0.output.dense.bias"
      ⟨"encoder.layer.0.output.dense.bias", 1, false⟩).requires_grad = true ∧
    (freezeParamAt ({} : InitArgs).train_biases ({} : InitArgs).train_embedding
      ({} : InitArgs).train_layer_norms "embeddings.word_embeddings.weight"
      ⟨"embeddings.word_embeddings.weight", 1, true⟩).requires_grad = false :=
  ⟨default_init_args.2.2.2.2.2.1 _ _ (by decide),
   default_init_args.2.2.2.2.2.2.2 _ _ (by decide) (by decide) (by decide) (by decide)
     (by decide)⟩

end LoraPeft
